import Mathlib

/- Shallow embedding of the SPI controller driver
   (src/spi-communication-project/src/firmware/spi_driver.c together with the
   register layout and bit masks of spi_driver.h).

   Modelling conventions:
   * The memory-mapped register block and the driver-private statics
     (current_mode, current_cs, initialized) form one explicit state record
     `SpiState`; every C function becomes a Lean function threading it.
   * Machine integers are `Nat`: the byte-wide registers store values reduced
     `% 256` exactly where the C type (`uint8_t`) truncates; 32-bit
     complement `~m` on `uint32_t` is `m ^^^ 0xFFFFFFFF`, which agrees with C
     on register values below `2 ^ 32`.
   * The hardware's asynchronous reaction to a started transfer is an
     explicit oracle `HwModel`: given the index of the transfer, the control
     word at the moment the Start bit was written, and the transmitted byte,
     it yields the status word that the polling loop eventually observes and
     the byte latched into RxData.  A reaction whose status keeps the Busy
     bit set means the hardware never completes; the driver's unbounded
     `while (spi_is_busy())` loop then never terminates, which the embedding
     renders as the `Option` result `none`.
   * C out-parameters become returned values; a pointer that the C code may
     leave unwritten becomes an `Option` result (`none` = not written).
     Bulk-transfer buffers are `List Nat` passed and returned by value; the
     NULL-pointer early-outs of the bulk helpers are not needed by the
     properties below, which all concern non-NULL buffers whose length equals
     the `length` argument. -/

namespace SpiDriver

-- Control register bit masks (spi_driver.h): 1 << 0, 1 << 1, 2 << 1, ...
def CTRL_START : Nat := 1
def CTRL_MODE0 : Nat := 2
def CTRL_MODE1 : Nat := 4
def CTRL_CS0 : Nat := 8
def CTRL_CS1 : Nat := 16
def CTRL_IRQ_EN : Nat := 32
def CTRL_DMA_EN : Nat := 64
def CTRL_LOOPBACK : Nat := 128
def CTRL_CS_POL : Nat := 256

-- Status register bit masks (spi_driver.h)
def STAT_BUSY : Nat := 1
def STAT_DONE : Nat := 2
def STAT_TX_FULL : Nat := 4
def STAT_TX_EMPTY : Nat := 8
def STAT_RX_FULL : Nat := 16
def STAT_RX_EMPTY : Nat := 32
def STAT_ERROR : Nat := 64
def STAT_IRQ_PEND : Nat := 128

/-- Return codes of the driver (`spi_error_t`). -/
inductive SpiError where
  | ok
  | busy
  | timeout
  | fifoFull
  | fifoEmpty
  | invalidMode
  deriving Repr, DecidableEq

/-- Driver statics plus the memory-mapped register block.  `xfers` is model
bookkeeping only: it counts the transfers started so far and is fed to the
hardware oracle so that distinct transfers may behave differently. -/
structure SpiState where
  current_mode : Nat
  current_cs : Nat
  initialized : Bool
  control : Nat
  status : Nat
  txData : Nat
  rxData : Nat
  clkDiv : Nat
  txFifo : Nat
  rxFifo : Nat
  irqEn : Nat
  version : Nat
  xfers : Nat
  deriving Repr, DecidableEq

/-- Oracle for the hardware's reaction to a started transfer: arguments are
the index of the transfer, the control word when Start was written and the
transmitted byte; the result is the status word the busy-poll loop eventually
observes together with the byte latched into RxData.  A status with the Busy
bit still set encodes hardware that never completes the transfer. -/
structure HwModel where
  react : Nat → Nat → Nat → Nat × Nat

/-- 32-bit complement, the value of `~m` at type `uint32_t`. -/
def compl32 (m : Nat) : Nat := m ^^^ 4294967295

/-- `spi_is_busy`. -/
def spi_is_busy (s : SpiState) : Bool := s.status &&& STAT_BUSY != 0

/-- `spi_is_done`. -/
def spi_is_done (s : SpiState) : Bool := s.status &&& STAT_DONE != 0

/-- `spi_has_error`. -/
def spi_has_error (s : SpiState) : Bool := s.status &&& STAT_ERROR != 0

/-- `spi_init`: builds the control word for the requested mode (unknown modes
fall back to mode 0), ORs in the bit of the currently selected chip select
(only CS0 and CS1 have bits), writes control, clock divider and a cleared
status, and marks the driver initialized. -/
def spi_init (s : SpiState) (mode : Nat) (clk_div : Nat) : SpiState :=
  let control : Nat :=
    match mode with
    | 0 => 0
    | 1 => CTRL_MODE0
    | 2 => CTRL_MODE1
    | 3 => CTRL_MODE0 ||| CTRL_MODE1
    | _ => 0
  let mode1 : Nat :=
    match mode with
    | 0 => 0
    | 1 => 1
    | 2 => 2
    | 3 => 3
    | _ => 0
  let control := control |||
    (if s.current_cs = 0 then CTRL_CS0 else if s.current_cs = 1 then CTRL_CS1 else 0)
  { s with control := control, clkDiv := clk_div % 256, status := 0,
           current_mode := mode1, initialized := true }

/-- `spi_set_mode`. -/
def spi_set_mode (s : SpiState) (mode : Nat) : SpiError × SpiState :=
  if !s.initialized then (.invalidMode, s)
  else
    let control := s.control &&& compl32 (CTRL_MODE0 ||| CTRL_MODE1)
    match mode with
    | 0 => (.ok, { s with control := control, current_mode := 0 })
    | 1 => (.ok, { s with control := control ||| CTRL_MODE0, current_mode := 1 })
    | 2 => (.ok, { s with control := control ||| CTRL_MODE1, current_mode := 2 })
    | 3 => (.ok, { s with control := control ||| CTRL_MODE0 ||| CTRL_MODE1, current_mode := 3 })
    | _ => (.invalidMode, s)

/-- `spi_set_clock_divider`; the argument is a C `uint8_t`, hence the `% 256`
at entry.  Dividers below 2 are clamped up to 2. -/
def spi_set_clock_divider (s : SpiState) (divider : Nat) : SpiError × SpiState :=
  if !s.initialized then (.invalidMode, s)
  else
    let divider := divider % 256
    let divider := if divider < 2 then 2 else divider
    (.ok, { s with clkDiv := divider })

/-- `spi_set_cs_polarity`. -/
def spi_set_cs_polarity (s : SpiState) (active_high : Bool) : SpiError × SpiState :=
  if !s.initialized then (.invalidMode, s)
  else
    let control := if active_high then s.control ||| CTRL_CS_POL
                   else s.control &&& compl32 CTRL_CS_POL
    (.ok, { s with control := control })

/-- `spi_enable_loopback`. -/
def spi_enable_loopback (s : SpiState) (enable : Bool) : SpiError × SpiState :=
  if !s.initialized then (.invalidMode, s)
  else
    let control := if enable then s.control ||| CTRL_LOOPBACK
                   else s.control &&& compl32 CTRL_LOOPBACK
    (.ok, { s with control := control })

/-- `spi_select_device`: clears both chip-select bits, then asserts CS0 for
lines 0 and 2 and CS1 for lines 1 and 3 (the source comments that CS2/CS3
have no bits of their own and are treated as CS0/CS1). -/
def spi_select_device (s : SpiState) (cs_line : Nat) : SpiError × SpiState :=
  if !s.initialized then (.invalidMode, s)
  else
    let control := s.control &&& compl32 (CTRL_CS0 ||| CTRL_CS1)
    match cs_line with
    | 0 => (.ok, { s with control := control ||| CTRL_CS0, current_cs := 0 })
    | 1 => (.ok, { s with control := control ||| CTRL_CS1, current_cs := 1 })
    | 2 => (.ok, { s with control := control ||| CTRL_CS0, current_cs := 2 })
    | 3 => (.ok, { s with control := control ||| CTRL_CS1, current_cs := 3 })
    | _ => (.invalidMode, s)

/-- `spi_deselect_device`: clears the bit of CS0 or CS1; for every other line
the default branch clears both bits. -/
def spi_deselect_device (s : SpiState) (cs_line : Nat) : SpiError × SpiState :=
  if !s.initialized then (.invalidMode, s)
  else
    let control :=
      match cs_line with
      | 0 => s.control &&& compl32 CTRL_CS0
      | 1 => s.control &&& compl32 CTRL_CS1
      | _ => s.control &&& compl32 (CTRL_CS0 ||| CTRL_CS1)
    (.ok, { s with control := control })

/-- `spi_transfer`: fails fast when uninitialized or when the Busy status bit
is already set; otherwise writes TxData, sets the Start bit and lets the
hardware react.  `wantRx = true` models a non-NULL `rx_data` pointer: the
driver then busy-polls until the Busy bit clears (`none` when the hardware
never clears it), maps a set Error bit to `.timeout`, and otherwise reads
RxData.  With `wantRx = false` it returns `.ok` right after issuing Start.
The middle component of the result is the byte stored through `rx_data`
(`none` when nothing was stored). -/
def spi_transfer (hw : HwModel) (s : SpiState) (tx : Nat) (wantRx : Bool) :
    Option (SpiError × Option Nat × SpiState) :=
  if !s.initialized then some (.invalidMode, none, s)
  else if spi_is_busy s then some (.busy, none, s)
  else
    let s2 := { s with txData := tx % 256, control := s.control ||| CTRL_START }
    let r := hw.react s2.xfers s2.control (tx % 256)
    let s3 := { s2 with status := r.1, rxData := r.2 % 256, xfers := s2.xfers + 1 }
    if wantRx then
      if r.1 &&& STAT_BUSY != 0 then none
      else if r.1 &&& STAT_ERROR != 0 then some (.timeout, none, s3)
      else some (.ok, some (r.2 % 256), s3)
    else some (.ok, none, s3)

/-- `spi_transfer_blocking`: starts a fire-and-forget transfer, then polls the
Busy bit with a `timeout_ms` argument that the source reads but never acts on
(the timeout check is an empty placeholder), so a hardware that never clears
Busy hangs the call (`none`) irrespective of `timeout_ms`. -/
def spi_transfer_blocking (hw : HwModel) (s : SpiState) (tx : Nat) (wantRx : Bool)
    (timeout_ms : Nat) : Option (SpiError × Option Nat × SpiState) :=
  if !s.initialized then some (.invalidMode, none, s)
  else
    match spi_transfer hw s tx false with
    | none => none
    | some (e, _, s1) =>
      if e != .ok then some (e, none, s1)
      else if spi_is_busy s1 then none
      else if spi_has_error s1 then some (.timeout, none, s1)
      else if wantRx then some (.ok, some s1.rxData, s1)
      else some (.ok, none, s1)

/-- Loop body of `spi_write_bytes`. -/
def writeLoop (hw : HwModel) : SpiState → List Nat → Option (SpiError × SpiState)
  | s, [] => some (.ok, s)
  | s, b :: rest =>
    match spi_transfer hw s b false with
    | none => none
    | some (e, _, s1) =>
      if e = .ok then writeLoop hw s1 rest else some (e, s1)

/-- `spi_write_bytes` for a non-NULL `data` pointer covering `data.length`
bytes: fire-and-forget transfers, stopping at the first error. -/
def spi_write_bytes (hw : HwModel) (s : SpiState) (data : List Nat) :
    Option (SpiError × SpiState) :=
  if !s.initialized then some (.invalidMode, s) else writeLoop hw s data

/-- Loop body of `spi_read_bytes`: transfers `0xFF` filler bytes, storing each
response at index `i` of the caller's buffer. -/
def readLoop (hw : HwModel) :
    SpiState → List Nat → Nat → Nat → Option (SpiError × List Nat × SpiState)
  | s, buf, _, 0 => some (.ok, buf, s)
  | s, buf, i, n + 1 =>
    match spi_transfer hw s 255 true with
    | none => none
    | some (e, rx, s1) =>
      if e = .ok then readLoop hw s1 (buf.set i (rx.getD 0)) (i + 1) n
      else some (e, buf, s1)

/-- `spi_read_bytes` for a non-NULL buffer: `buffer` holds the initial
contents of the caller's (possibly uninitialized) array, `len` the C `length`
argument. -/
def spi_read_bytes (hw : HwModel) (s : SpiState) (buffer : List Nat) (len : Nat) :
    Option (SpiError × List Nat × SpiState) :=
  if !s.initialized then some (.invalidMode, buffer, s)
  else readLoop hw s buffer 0 len

/-- Loop body of `spi_transfer_bytes` for non-NULL `tx_data` and `rx_data`
with `length` equal to the length of `tx_data`: the transmitted bytes drive
the recursion, responses land at successive indices of the receive buffer. -/
def xferLoop (hw : HwModel) :
    SpiState → List Nat → List Nat → Nat → Option (SpiError × List Nat × SpiState)
  | s, [], buf, _ => some (.ok, buf, s)
  | s, b :: rest, buf, i =>
    match spi_transfer hw s b true with
    | none => none
    | some (e, rx, s1) =>
      if e = .ok then xferLoop hw s1 rest (buf.set i (rx.getD 0)) (i + 1)
      else some (e, buf, s1)

/-- `spi_transfer_bytes` for non-NULL pointers and `length = tx_data.length`. -/
def spi_transfer_bytes (hw : HwModel) (s : SpiState) (tx_data rx_buf : List Nat) :
    Option (SpiError × List Nat × SpiState) :=
  if !s.initialized then some (.invalidMode, rx_buf, s)
  else xferLoop hw s tx_data rx_buf 0

/-- `spi_flash_read_id` for non-NULL id pointers: `stack` holds the initial
(garbage) contents of the local `response[3]` array.  The return values of the
embedded select / command transfer / bulk read / deselect steps are discarded,
exactly as in the source; the two id results are the first two cells of the
response buffer, written or not. -/
def spi_flash_read_id (hw : HwModel) (s : SpiState) (stack : List Nat) :
    Option (SpiError × Option Nat × Option Nat × SpiState) :=
  if !s.initialized then some (.invalidMode, none, none, s)
  else
    let (_, s1) := spi_select_device s 0
    match spi_transfer hw s1 159 false with
    | none => none
    | some (_, _, s2) =>
      match spi_read_bytes hw s2 stack 3 with
      | none => none
      | some (_, response, s3) =>
        let (_, s4) := spi_deselect_device s3 0
        some (.ok, some (response.getD 0 0), some (response.getD 1 0), s4)

-- Hardware oracles used as concrete instances in the theorems below.

/-- Ideal loopback-capable hardware: every transfer completes (Done set, Busy
and Error clear) and echoes the transmitted byte into RxData. -/
def loopbackHw : HwModel := ⟨fun _ _ tx => (STAT_DONE, tx)⟩

/-- Hardware whose receive line always reads 0 (no device driving MISO). -/
def zeroHw : HwModel := ⟨fun _ _ _ => (STAT_DONE, 0)⟩

/-- Hardware that never completes a transfer: Busy stays set forever. -/
def stuckHw : HwModel := ⟨fun _ _ _ => (STAT_BUSY, 0)⟩

/-- What it means for an arbitrary hardware oracle to implement loopback:
whenever the control word at Start time has the Loopback bit set, the
transfer completes without Busy or Error and RxData echoes the transmitted
byte. -/
def LoopbackOk (hw : HwModel) : Prop :=
  ∀ idx control tx, control &&& CTRL_LOOPBACK ≠ 0 →
    (hw.react idx control tx).1 &&& STAT_BUSY = 0 ∧
    (hw.react idx control tx).1 &&& STAT_ERROR = 0 ∧
    (hw.react idx control tx).2 % 256 = tx % 256

/-- Power-on state: everything zero, driver uninitialized, version register
reading `0x00010000`. -/
def resetState : SpiState :=
  ⟨0, 0, false, 0, 0, 0, 0, 0, 0, 0, 0, 65536, 0⟩

/-- A state as produced by `spi_init(SPI_MODE_0, 4)` from power-on. -/
def readyState : SpiState := spi_init resetState 0 4

/-- `readyState` after `spi_enable_loopback(true)`. -/
def loopState : SpiState := (spi_enable_loopback readyState true).2

/-- `readyState` with the Busy status bit set by the hardware. -/
def busyState : SpiState := { readyState with status := STAT_BUSY }

/- ------------------------------------------------------------------ -/
/- Helper lemmas about the 32-bit read-modify-write idiom of the driver -/
/- ------------------------------------------------------------------ -/

/-- Clearing a bit field with the C idiom `(c & ~m) | b` and reading the
field back through the mask `m` returns exactly the newly written bits,
provided `m` fits in 32 bits and `b` lies inside the field. -/
lemma rmw_mask (c m b : Nat) (hm : m < 4294967296) (hb : b ||| m = m) :
    ((c &&& (m ^^^ 4294967295)) ||| b) &&& m = b := by
  apply Nat.eq_of_testBit_eq
  intro i
  have hbm := congrArg (fun x => Nat.testBit x i) hb
  simp only [Nat.testBit_or] at hbm
  simp only [Nat.testBit_and, Nat.testBit_or, Nat.testBit_xor]
  rcases lt_or_le i 32 with hi | hi
  · have hones : Nat.testBit 4294967295 i = true := by
      rw [show (4294967295 : Nat) = 2 ^ 32 - 1 by norm_num,
        Nat.testBit_two_pow_sub_one]
      simp [hi]
    rw [hones]
    cases hm1 : m.testBit i <;> cases hb1 : b.testBit i <;> simp_all
  · have hpow : (2 : Nat) ^ 32 ≤ 2 ^ i := Nat.pow_le_pow_right (by decide) hi
    have hmf : m.testBit i = false :=
      Nat.testBit_lt_two_pow (lt_of_lt_of_le hm hpow)
    have hbf : b.testBit i = false := by
      rw [hmf] at hbm
      simpa using hbm
    simp [hmf, hbf]

/-- Setting the Start bit does not disturb the Loopback bit. -/
lemma lor_start_and_loopback (c : Nat) : (c ||| 1) &&& 128 = c &&& 128 := by
  apply Nat.eq_of_testBit_eq
  intro i
  simp only [Nat.testBit_and, Nat.testBit_or]
  rcases eq_or_ne i 7 with h | h
  · subst h
    simp [show Nat.testBit 1 7 = false by decide]
  · have h7 : 7 ≠ i := Ne.symm h
    have h128 : Nat.testBit 128 i = false := by
      rw [show (128 : Nat) = 2 ^ 7 by norm_num, Nat.testBit_two_pow]
      simp [h7]
    simp [h128]

/- ------------------------------------------------------------------ -/
/- Claims                                                              -/
/- ------------------------------------------------------------------ -/

/-- A transfer attempted while the Busy status bit is set is rejected with
the state untouched (shared helper). -/
lemma transfer_at_busy (hw : HwModel) (s : SpiState) (tx : Nat)
    (wantRx : Bool) (hinit : s.initialized = true)
    (hbusy : s.status &&& STAT_BUSY ≠ 0) :
    spi_transfer hw s tx wantRx = some (.busy, none, s) := by
  have h1 : s.status % 2 ≠ 0 := by
    rwa [STAT_BUSY, Nat.and_one_is_mod] at hbusy
  have h2 : s.status % 2 = 1 := by omega
  simp [spi_transfer, spi_is_busy, STAT_BUSY, hinit, h2]

/-- Claim C2: on an initialized controller whose Busy status bit is set,
`spi_transfer` returns the Busy error and leaves the whole state — in
particular the TxData register and the Start bit of the Control register —
exactly as it was. -/
theorem spi_transfer_busy_rejects (hw : HwModel) (s : SpiState) (tx : Nat)
    (wantRx : Bool) (hinit : s.initialized = true)
    (hbusy : s.status &&& STAT_BUSY ≠ 0) :
    spi_transfer hw s tx wantRx = some (.busy, none, s) :=
  transfer_at_busy hw s tx wantRx hinit hbusy

/-- Witness for C2 at a concrete busy state. -/
theorem spi_transfer_busy_rejects_w :
    spi_transfer zeroHw busyState 66 true = some (.busy, none, busyState) :=
  spi_transfer_busy_rejects zeroHw busyState 66 true (by decide) (by decide)

/-- Claim C3: every configuration operation and every transfer operation
invoked while `initialized = false` returns InvalidMode and returns the state
— so every register of the register block — unchanged. -/
theorem uninitialized_ops_reject (hw : HwModel) (s : SpiState)
    (mode d cs tx len t : Nat) (pol en wantRx : Bool)
    (data buffer txs rxb : List Nat) (h : s.initialized = false) :
    spi_set_mode s mode = (.invalidMode, s) ∧
    spi_set_clock_divider s d = (.invalidMode, s) ∧
    spi_set_cs_polarity s pol = (.invalidMode, s) ∧
    spi_enable_loopback s en = (.invalidMode, s) ∧
    spi_select_device s cs = (.invalidMode, s) ∧
    spi_deselect_device s cs = (.invalidMode, s) ∧
    spi_transfer hw s tx wantRx = some (.invalidMode, none, s) ∧
    spi_transfer_blocking hw s tx wantRx t = some (.invalidMode, none, s) ∧
    spi_write_bytes hw s data = some (.invalidMode, s) ∧
    spi_read_bytes hw s buffer len = some (.invalidMode, buffer, s) ∧
    spi_transfer_bytes hw s txs rxb = some (.invalidMode, rxb, s) := by
  refine ⟨?_, ?_, ?_, ?_, ?_, ?_, ?_, ?_, ?_, ?_, ?_⟩ <;>
    simp [spi_set_mode, spi_set_clock_divider, spi_set_cs_polarity,
      spi_enable_loopback, spi_select_device, spi_deselect_device,
      spi_transfer, spi_transfer_blocking, spi_write_bytes, spi_read_bytes,
      spi_transfer_bytes, h]

/-- Witness for C3 at the power-on state. -/
theorem uninitialized_ops_reject_w :
    spi_set_mode resetState 1 = (.invalidMode, resetState) ∧
    spi_transfer zeroHw resetState 66 true = some (.invalidMode, none, resetState) :=
  ⟨(uninitialized_ops_reject zeroHw resetState 1 0 2 66 3 5 true true true
      [1] [0, 0] [1, 2] [0, 0] rfl).1,
   (uninitialized_ops_reject zeroHw resetState 1 0 2 66 3 5 true true true
      [1] [0, 0] [1, 2] [0, 0] rfl).2.2.2.2.2.2.1⟩

/-- Claim C8: on an initialized controller `spi_set_clock_divider` succeeds
and stores 2 when the (byte-valued) divider is below 2, and the divider
itself otherwise. -/
theorem spi_set_clock_divider_clamps (s : SpiState) (d : Nat)
    (hinit : s.initialized = true) (hd : d < 256) :
    spi_set_clock_divider s d =
      (.ok, { s with clkDiv := if d < 2 then 2 else d }) := by
  have hmod : d % 256 = d := Nat.mod_eq_of_lt hd
  simp [spi_set_clock_divider, hinit, hmod]

/-- Witness for C8 at dividers 0 and 100. -/
theorem spi_set_clock_divider_clamps_w :
    spi_set_clock_divider readyState 0 = (.ok, { readyState with clkDiv := 2 }) ∧
    spi_set_clock_divider readyState 100 = (.ok, { readyState with clkDiv := 100 }) :=
  ⟨spi_set_clock_divider_clamps readyState 0 rfl (by decide),
   spi_set_clock_divider_clamps readyState 100 rfl (by decide)⟩

/-- Claim C10: when the remembered chip select is line 2 or line 3,
`spi_init` writes a control word in which neither the CS0 bit nor the CS1 bit
is set — the CS2-to-CS0 / CS3-to-CS1 aliasing lives only in
`spi_select_device`. -/
theorem spi_init_cs23_no_cs_bits (s : SpiState) (mode clk : Nat)
    (h : s.current_cs = 2 ∨ s.current_cs = 3) :
    (spi_init s mode clk).control &&& (CTRL_CS0 ||| CTRL_CS1) = 0 := by
  have h0 : s.current_cs ≠ 0 := by rcases h with h | h <;> simp [h]
  have h1 : s.current_cs ≠ 1 := by rcases h with h | h <;> simp [h]
  simp [spi_init, h0, h1]
  split <;> decide

/-- Witness for C10 with chip select 2 remembered. -/
theorem spi_init_cs23_no_cs_bits_w :
    (spi_init { resetState with current_cs := 2 } 3 4).control &&&
      (CTRL_CS0 ||| CTRL_CS1) = 0 :=
  spi_init_cs23_no_cs_bits { resetState with current_cs := 2 } 3 4 (Or.inl rfl)

/-- After a successful `spi_set_mode m` for a supported mode `m < 4`, the
two-bit mode field of the control register holds exactly `2 * m` (shared
helper behind claim C6). -/
lemma set_mode_control_field (s : SpiState) (m : Nat)
    (hinit : s.initialized = true) (hm : m < 4) :
    (spi_set_mode s m).1 = .ok ∧
    (spi_set_mode s m).2.control &&& (CTRL_MODE0 ||| CTRL_MODE1) = 2 * m := by
  have hmask : CTRL_MODE0 ||| CTRL_MODE1 = 6 := by decide
  interval_cases m
  · have h := rmw_mask s.control 6 0 (by decide) (by decide)
    rw [Nat.or_zero] at h
    exact ⟨by simp [spi_set_mode, hinit],
      by simpa [spi_set_mode, hinit, hmask, compl32, CTRL_MODE0, CTRL_MODE1] using h⟩
  · have h := rmw_mask s.control 6 2 (by decide) (by decide)
    exact ⟨by simp [spi_set_mode, hinit],
      by simpa [spi_set_mode, hinit, hmask, compl32, CTRL_MODE0, CTRL_MODE1] using h⟩
  · have h := rmw_mask s.control 6 4 (by decide) (by decide)
    exact ⟨by simp [spi_set_mode, hinit],
      by simpa [spi_set_mode, hinit, hmask, compl32, CTRL_MODE0, CTRL_MODE1] using h⟩
  · have h := rmw_mask s.control 6 6 (by decide) (by decide)
    have hassoc : ∀ x : Nat, x ||| 2 ||| 4 = x ||| 6 := by
      intro x
      rw [Nat.lor_assoc]
      rfl
    exact ⟨by simp [spi_set_mode, hinit],
      by simpa [spi_set_mode, hinit, hmask, compl32, CTRL_MODE0, CTRL_MODE1, hassoc]
        using h⟩

/-- Claim C6: on an initialized controller, `spi_set_mode` succeeds for each
of the four supported modes and leaves control bits 1-2 holding exactly the
(clock polarity, clock phase) encoding — polarity `m / 2` in bit 2, phase
`m % 2` in bit 1 — and the map from modes to the two mode bits is a
bijection (injective, and onto the four possible values of the field). -/
theorem spi_set_mode_bits_bijection (s : SpiState) (hinit : s.initialized = true) :
    (∀ m, m < 4 →
      (spi_set_mode s m).1 = .ok ∧
      (spi_set_mode s m).2.control &&& (CTRL_MODE0 ||| CTRL_MODE1) =
        CTRL_MODE1 * (m / 2) + CTRL_MODE0 * (m % 2)) ∧
    (∀ m1 m2, m1 < 4 → m2 < 4 →
      (spi_set_mode s m1).2.control &&& (CTRL_MODE0 ||| CTRL_MODE1) =
        (spi_set_mode s m2).2.control &&& (CTRL_MODE0 ||| CTRL_MODE1) → m1 = m2) ∧
    (∀ v, v < 8 → v % 2 = 0 →
      ∃ m, m < 4 ∧
        (spi_set_mode s m).2.control &&& (CTRL_MODE0 ||| CTRL_MODE1) = v) := by
  refine ⟨?_, ?_, ?_⟩
  · intro m hm
    obtain ⟨h1, h2⟩ := set_mode_control_field s m hinit hm
    refine ⟨h1, ?_⟩
    rw [h2, CTRL_MODE0, CTRL_MODE1]
    omega
  · intro m1 m2 h1 h2 heq
    rw [(set_mode_control_field s m1 hinit h1).2,
      (set_mode_control_field s m2 hinit h2).2] at heq
    omega
  · intro v hv he
    refine ⟨v / 2, by omega, ?_⟩
    rw [(set_mode_control_field s (v / 2) hinit (by omega)).2]
    omega

/-- Witness for C6 at mode 2 on a concrete initialized state. -/
theorem spi_set_mode_bits_bijection_w :
    (spi_set_mode readyState 2).1 = .ok ∧
    (spi_set_mode readyState 2).2.control &&& (CTRL_MODE0 ||| CTRL_MODE1) =
      CTRL_MODE1 * (2 / 2) + CTRL_MODE0 * (2 % 2) :=
  (spi_set_mode_bits_bijection readyState rfl).1 2 (by decide)

/-- Claim C5: on an initialized controller, selecting line 2 asserts the CS0
bit and selecting line 3 asserts the CS1 bit (the aliasing), while
deselecting any line other than 0 or 1 clears both chip-select bits. -/
theorem spi_cs_alias_asymmetry (s : SpiState) (hinit : s.initialized = true) :
    (spi_select_device s 2).2.control &&& (CTRL_CS0 ||| CTRL_CS1) = CTRL_CS0 ∧
    (spi_select_device s 3).2.control &&& (CTRL_CS0 ||| CTRL_CS1) = CTRL_CS1 ∧
    (∀ cs, cs ≠ 0 → cs ≠ 1 →
      (spi_deselect_device s cs).2.control &&& (CTRL_CS0 ||| CTRL_CS1) = 0) := by
  have hmask : CTRL_CS0 ||| CTRL_CS1 = 24 := by decide
  refine ⟨?_, ?_, ?_⟩
  · have h := rmw_mask s.control 24 8 (by decide) (by decide)
    simpa [spi_select_device, hinit, hmask, compl32, CTRL_CS0, CTRL_CS1] using h
  · have h := rmw_mask s.control 24 16 (by decide) (by decide)
    simpa [spi_select_device, hinit, hmask, compl32, CTRL_CS0, CTRL_CS1] using h
  · intro cs h0 h1
    have h := rmw_mask s.control 24 0 (by decide) (by decide)
    rw [Nat.or_zero] at h
    simp only [spi_deselect_device, hinit, Bool.not_true, Bool.false_eq_true,
      if_false]
    simpa [hmask, compl32, CTRL_CS0, CTRL_CS1] using h

/-- Witness for C5 on a concrete initialized state. -/
theorem spi_cs_alias_asymmetry_w :
    (spi_select_device readyState 2).2.control &&& (CTRL_CS0 ||| CTRL_CS1) =
      CTRL_CS0 ∧
    (spi_deselect_device readyState 3).2.control &&& (CTRL_CS0 ||| CTRL_CS1) = 0 :=
  ⟨(spi_cs_alias_asymmetry readyState rfl).1,
   (spi_cs_alias_asymmetry readyState rfl).2.2 3 (by decide) (by decide)⟩

/-- Claim C4 (refuted by the code): `spi_transfer_blocking` never acts on its
`timeout_ms` argument — the result is literally independent of it — and with
hardware that never clears Busy the call spins forever (modelled as `none`)
instead of aborting with Timeout after the bound. -/
theorem spi_transfer_blocking_timeout_dead :
    (∀ hw s tx wantRx t1 t2,
      spi_transfer_blocking hw s tx wantRx t1 =
        spi_transfer_blocking hw s tx wantRx t2) ∧
    spi_transfer_blocking stuckHw readyState 66 true 5 = none :=
  ⟨fun _ _ _ _ _ _ => rfl, by decide⟩

/-- Claim C9: whenever the controller is initialized, `spi_flash_read_id`
returns Ok no matter what its embedded select / command-transfer / bulk-read /
deselect steps returned; and when those transfers fail (here: Busy already
set), the reported identifiers are the first two cells of the never-written
response buffer. -/
theorem spi_flash_read_id_ignores_failures (hw : HwModel) (s : SpiState)
    (stack : List Nat) (hinit : s.initialized = true) :
    (∀ r, spi_flash_read_id hw s stack = some r → r.1 = .ok) ∧
    (s.status &&& STAT_BUSY ≠ 0 →
      ∃ s4, spi_flash_read_id hw s stack =
        some (.ok, some (stack.getD 0 0), some (stack.getD 1 0), s4)) := by
  constructor
  · intro r hr
    simp only [spi_flash_read_id, hinit, Bool.not_true, Bool.false_eq_true,
      if_false] at hr
    split at hr
    · exact Option.noConfusion hr
    · split at hr
      · exact Option.noConfusion hr
      · simp only [Option.some.injEq] at hr
        subst hr
        rfl
  · intro hbusy
    rcases hsel : spi_select_device s 0 with ⟨e1, s1⟩
    have hs1 : (spi_select_device s 0).2 = s1 := by rw [hsel]
    have hi1 : s1.initialized = true := by
      rw [← hs1]
      simp [spi_select_device, hinit]
    have hb1 : s1.status &&& STAT_BUSY ≠ 0 := by
      rw [← hs1]
      simpa [spi_select_device, hinit] using hbusy
    have htrc := transfer_at_busy hw s1 159 false hi1 hb1
    have h255 := transfer_at_busy hw s1 255 true hi1 hb1
    have hrd : spi_read_bytes hw s1 stack 3 = some (.busy, stack, s1) := by
      simp [spi_read_bytes, readLoop, h255, hi1]
    refine ⟨(spi_deselect_device s1 0).2, ?_⟩
    simp [spi_flash_read_id, hinit, hsel, htrc, hrd]

/-- Witness for C9: initialized but Busy controller, garbage response buffer
`[11, 22, 33]` — the call still reports Ok with ids 11 and 22. -/
theorem spi_flash_read_id_ignores_failures_w :
    ∃ s4, spi_flash_read_id zeroHw busyState [11, 22, 33] =
      some (.ok, some 11, some 22, s4) :=
  (spi_flash_read_id_ignores_failures zeroHw busyState [11, 22, 33]
    (by decide)).2 (by decide)

/-- The concrete `loopbackHw` oracle implements loopback semantics. -/
lemma loopbackHw_ok : LoopbackOk loopbackHw := by
  intro i c tx h
  refine ⟨?_, ?_, rfl⟩
  · show STAT_DONE &&& STAT_BUSY = 0
    decide
  · show STAT_DONE &&& STAT_ERROR = 0
    decide

/-- Invariant maintained across a loopback bulk transfer: driver initialized,
Busy bit clear, Loopback bit set in the control register. -/
def LoopInv (s : SpiState) : Prop :=
  s.initialized = true ∧ s.status &&& STAT_BUSY = 0 ∧
    s.control &&& CTRL_LOOPBACK ≠ 0

/-- One waited single-byte transfer under loopback hardware succeeds, echoes
the byte, and re-establishes the invariant. -/
lemma loopback_transfer_step (hw : HwModel) (hok : LoopbackOk hw) (s : SpiState)
    (b : Nat) (hb : b < 256) (hinv : LoopInv s) :
    ∃ s3, spi_transfer hw s b true = some (.ok, some b, s3) ∧ LoopInv s3 := by
  obtain ⟨hi, hbusy, hloop⟩ := hinv
  have hmod : b % 256 = b := Nat.mod_eq_of_lt hb
  have hctrl : (s.control ||| CTRL_START) &&& CTRL_LOOPBACK ≠ 0 := by
    rw [CTRL_START, CTRL_LOOPBACK, lor_start_and_loopback]
    rwa [CTRL_LOOPBACK] at hloop
  obtain ⟨hr1, hr2, hr3⟩ := hok s.xfers (s.control ||| CTRL_START) b hctrl
  rw [hmod] at hr3
  have hsb : s.status % 2 = 0 := by rwa [STAT_BUSY, Nat.and_one_is_mod] at hbusy
  have hrb : (hw.react s.xfers (s.control ||| CTRL_START) b).1 % 2 = 0 := by
    rwa [STAT_BUSY, Nat.and_one_is_mod] at hr1
  refine ⟨{ s with
      txData := b,
      control := s.control ||| CTRL_START,
      status := (hw.react s.xfers (s.control ||| CTRL_START) b).1,
      rxData := b,
      xfers := s.xfers + 1 }, ?_, ?_⟩
  · simp [spi_transfer, spi_is_busy, STAT_BUSY, STAT_ERROR, hi, hsb, hmod, hrb,
      hr2, hr3]
    rwa [STAT_ERROR] at hr2
  · exact ⟨hi, hr1, hctrl⟩

/-- Overwriting the cell just after a prefix keeps the prefix and replaces
the head of the suffix. -/
lemma set_append_cons (l1 l2 : List Nat) (a bv : Nat) :
    (l1 ++ a :: l2).set l1.length bv = l1 ++ bv :: l2 := by
  induction l1 with
  | nil => rfl
  | cons x xs ih => simp [List.set, ih]

/-- Unfolding of the bidirectional bulk loop at a successful head transfer. -/
lemma xferLoop_cons_ok (hw : HwModel) (s : SpiState) (b : Nat) (txs buf : List Nat)
    (i : Nat) (rx : Option Nat) (s1 : SpiState)
    (h : spi_transfer hw s b true = some (.ok, rx, s1)) :
    xferLoop hw s (b :: txs) buf i = xferLoop hw s1 txs (buf.set i (rx.getD 0)) (i + 1) := by
  simp [xferLoop, h]

/-- The bidirectional bulk loop under loopback hardware: starting after
`done` already-written cells with a suffix of fresh cells matching the
remaining bytes, it succeeds and the receive buffer ends as `done ++ txs`. -/
lemma xferLoop_loopback (hw : HwModel) (hok : LoopbackOk hw) :
    ∀ (txs : List Nat) (s : SpiState) (done rest : List Nat),
      LoopInv s → (∀ b ∈ txs, b < 256) → rest.length = txs.length →
      ∃ s2, xferLoop hw s txs (done ++ rest) done.length =
          some (.ok, done ++ txs, s2) ∧ LoopInv s2 := by
  intro txs
  induction txs with
  | nil =>
    intro s done rest hinv _ hlen
    have hr : rest = [] := List.eq_nil_of_length_eq_zero (by simpa using hlen)
    subst hr
    exact ⟨s, by simp [xferLoop], hinv⟩
  | cons b txs ih =>
    intro s done rest hinv hlt hlen
    rcases rest with _ | ⟨r, rs⟩
    · simp at hlen
    · have hb : b < 256 := hlt b (by simp)
      obtain ⟨s3, hstep, hinv2⟩ := loopback_transfer_step hw hok s b hb hinv
      have hlen2 : rs.length = txs.length := by simpa using hlen
      have hlt2 : ∀ x ∈ txs, x < 256 := fun x hx => hlt x (by simp [hx])
      obtain ⟨s2, hloop, hinv3⟩ := ih s3 (done ++ [b]) rs hinv2 hlt2 hlen2
      refine ⟨s2, ?_, hinv3⟩
      rw [xferLoop_cons_ok hw s b txs (done ++ r :: rs) done.length (some b) s3 hstep,
        show ((some b).getD 0) = b from rfl, set_append_cons done rs r b,
        show done.length + 1 = (done ++ [b]).length by simp,
        show done ++ b :: rs = (done ++ [b]) ++ rs by simp, hloop]
      simp

/-- Claim C1: with loopback enabled on an initialized idle controller, and
any hardware implementing loopback semantics, `spi_transfer_bytes` on a byte
sequence of length at most 32 succeeds and fills the receive buffer with the
very sequence transmitted; with loopback disabled no such equality holds — a
concrete non-loopback run returns Ok with a different received sequence. -/
theorem transferBytes_loopback_roundtrip :
    (∀ (hw : HwModel) (s : SpiState) (txs rxbuf : List Nat),
      LoopbackOk hw → s.initialized = true →
      s.status &&& STAT_BUSY = 0 → s.control &&& CTRL_LOOPBACK ≠ 0 →
      (∀ b ∈ txs, b < 256) → rxbuf.length = txs.length → txs.length ≤ 32 →
      ∃ s2, spi_transfer_bytes hw s txs rxbuf = some (.ok, txs, s2)) ∧
    (∃ s2, spi_transfer_bytes zeroHw readyState [1] [7] =
        some (.ok, [0], s2) ∧ ([0] : List Nat) ≠ [1]) := by
  constructor
  · intro hw s txs rxbuf hok hi hb hl hlt hlen hle
    obtain ⟨s2, hrun, _⟩ :=
      xferLoop_loopback hw hok txs s [] rxbuf ⟨hi, hb, hl⟩ hlt (by simpa using hlen)
    refine ⟨s2, ?_⟩
    simpa [spi_transfer_bytes, hi] using hrun
  · exact ⟨_, rfl, by decide⟩

/-- Witness for C1: loopback hardware, loopback-enabled state, two bytes. -/
theorem transferBytes_loopback_roundtrip_w :
    ∃ s2, spi_transfer_bytes loopbackHw loopState [5, 250] [0, 0] =
      some (.ok, [5, 250], s2) :=
  transferBytes_loopback_roundtrip.1 loopbackHw loopState [5, 250] [0, 0]
    loopbackHw_ok rfl (by decide) (by decide)
    (by decide) (by decide) (by decide)

/-- Hardware that completes the first transfer normally and then wedges with
Busy set forever. -/
def onceThenStuckHw : HwModel :=
  ⟨fun idx _ tx => if idx = 0 then (STAT_DONE, tx) else (STAT_BUSY, tx)⟩

/-- Hardware that completes the first transfer normally and reports the Error
status bit on every later one. -/
def onceThenErrorHw : HwModel :=
  ⟨fun idx _ tx => if idx = 0 then (STAT_DONE, tx) else (STAT_DONE ||| STAT_ERROR, tx)⟩

/-- Splitting the fire-and-forget bulk loop at a list append. -/
lemma writeLoop_append (hw : HwModel) (xs ys : List Nat) :
    ∀ s, writeLoop hw s (xs ++ ys) =
      match writeLoop hw s xs with
      | none => none
      | some (e, s1) => if e = .ok then writeLoop hw s1 ys else some (e, s1) := by
  induction xs with
  | nil =>
    intro s
    simp [writeLoop]
  | cons b bs ih =>
    intro s
    simp only [List.cons_append, writeLoop]
    cases h : spi_transfer hw s b false with
    | none => rfl
    | some v =>
      obtain ⟨e, rx, s1⟩ := v
      by_cases he : e = .ok
      · simp [he, ih s1]
      · simp [he]

/-- Splitting the byte-counted read loop at a sum of counts. -/
lemma readLoop_add (hw : HwModel) (a b : Nat) :
    ∀ (s : SpiState) (buf : List Nat) (i : Nat),
      readLoop hw s buf i (a + b) =
        match readLoop hw s buf i a with
        | none => none
        | some (e, buf1, s1) =>
          if e = .ok then readLoop hw s1 buf1 (i + a) b
          else some (e, buf1, s1) := by
  induction a with
  | zero =>
    intro s buf i
    simp [readLoop]
  | succ a ih =>
    intro s buf i
    rw [show a + 1 + b = (a + b) + 1 by omega]
    simp only [readLoop]
    cases h : spi_transfer hw s 255 true with
    | none => rfl
    | some v =>
      obtain ⟨e, rx, s1⟩ := v
      by_cases he : e = .ok
      · simp [he, ih, show i + 1 + a = i + (a + 1) by omega]
      · simp [he]

/-- Splitting the bidirectional bulk loop at a list append. -/
lemma xferLoop_append (hw : HwModel) (xs ys : List Nat) :
    ∀ (s : SpiState) (buf : List Nat) (i : Nat),
      xferLoop hw s (xs ++ ys) buf i =
        match xferLoop hw s xs buf i with
        | none => none
        | some (e, buf1, s1) =>
          if e = .ok then xferLoop hw s1 ys buf1 (i + xs.length)
          else some (e, buf1, s1) := by
  induction xs with
  | nil =>
    intro s buf i
    simp [xferLoop]
  | cons b bs ih =>
    intro s buf i
    simp only [List.cons_append, xferLoop]
    cases h : spi_transfer hw s b true with
    | none => rfl
    | some v =>
      obtain ⟨e, rx, s1⟩ := v
      by_cases he : e = .ok
      · simp [he, ih, show i + 1 + bs.length = i + (bs.length + 1) by omega]
      · simp [he]

/-- Claim C7: each bulk operation stops at the first failing single-byte
transfer, returns that first error unchanged, and keeps the effects of the
earlier iterations in place (no rollback): the state reached by the
successful prefix persists, the receive buffer keeps exactly the bytes
already stored by the prefix, and the remaining bytes are never attempted. -/
theorem bulk_ops_propagate_first_error :
    (∀ (hw : HwModel) (s : SpiState) (xs : List Nat) (y : Nat) (zs : List Nat)
        (s1 : SpiState) (e : SpiError) (rx : Option Nat) (s2 : SpiState),
      spi_write_bytes hw s xs = some (.ok, s1) →
      spi_transfer hw s1 y false = some (e, rx, s2) → e ≠ .ok →
      spi_write_bytes hw s (xs ++ y :: zs) = some (e, s2)) ∧
    (∀ (hw : HwModel) (s : SpiState) (buf buf1 : List Nat) (n k : Nat)
        (s1 : SpiState) (e : SpiError) (rx : Option Nat) (s2 : SpiState),
      spi_read_bytes hw s buf n = some (.ok, buf1, s1) →
      spi_transfer hw s1 255 true = some (e, rx, s2) → e ≠ .ok →
      spi_read_bytes hw s buf (n + (k + 1)) = some (e, buf1, s2)) ∧
    (∀ (hw : HwModel) (s : SpiState) (xs : List Nat) (y : Nat) (zs : List Nat)
        (rxbuf buf1 : List Nat) (s1 : SpiState) (e : SpiError) (rx : Option Nat)
        (s2 : SpiState),
      spi_transfer_bytes hw s xs rxbuf = some (.ok, buf1, s1) →
      spi_transfer hw s1 y true = some (e, rx, s2) → e ≠ .ok →
      spi_transfer_bytes hw s (xs ++ y :: zs) rxbuf = some (e, buf1, s2)) := by
  refine ⟨?_, ?_, ?_⟩
  · intro hw s xs y zs s1 e rx s2 h1 h2 hne
    cases hi : s.initialized with
    | false => simp [spi_write_bytes, hi] at h1
    | true =>
      have hl1 : writeLoop hw s xs = some (.ok, s1) := by
        simpa [spi_write_bytes, hi] using h1
      have hgoal : spi_write_bytes hw s (xs ++ y :: zs) =
          writeLoop hw s (xs ++ y :: zs) := by
        simp [spi_write_bytes, hi]
      rw [hgoal, writeLoop_append hw xs (y :: zs) s, hl1]
      simp [writeLoop, h2, hne]
  · intro hw s buf buf1 n k s1 e rx s2 h1 h2 hne
    cases hi : s.initialized with
    | false => simp [spi_read_bytes, hi] at h1
    | true =>
      have hl1 : readLoop hw s buf 0 n = some (.ok, buf1, s1) := by
        simpa [spi_read_bytes, hi] using h1
      have hgoal : spi_read_bytes hw s buf (n + (k + 1)) =
          readLoop hw s buf 0 (n + (k + 1)) := by
        simp [spi_read_bytes, hi]
      rw [hgoal, readLoop_add hw n (k + 1) s buf 0, hl1]
      simp [readLoop, h2, hne]
  · intro hw s xs y zs rxbuf buf1 s1 e rx s2 h1 h2 hne
    cases hi : s.initialized with
    | false => simp [spi_transfer_bytes, hi] at h1
    | true =>
      have hl1 : xferLoop hw s xs rxbuf 0 = some (.ok, buf1, s1) := by
        simpa [spi_transfer_bytes, hi] using h1
      have hgoal : spi_transfer_bytes hw s (xs ++ y :: zs) rxbuf =
          xferLoop hw s (xs ++ y :: zs) rxbuf 0 := by
        simp [spi_transfer_bytes, hi]
      rw [hgoal, xferLoop_append hw xs (y :: zs) s rxbuf 0, hl1]
      simp [xferLoop, h2, hne]

/-- Witness for C7: concrete runs in which the hardware fails after the first
transfer — the write path trips over the stuck Busy bit at the third byte,
the read and bidirectional paths hit the Error bit at the second transfer. -/
theorem bulk_ops_propagate_first_error_w :
    (∃ s2, spi_write_bytes onceThenStuckHw readyState [10, 20, 30, 40] =
      some (.busy, s2)) ∧
    (∃ s2, spi_read_bytes onceThenErrorHw readyState [9, 9, 9] 3 =
      some (.timeout, [255, 9, 9], s2)) ∧
    (∃ s2, spi_transfer_bytes onceThenErrorHw readyState [10, 20] [9, 9] =
      some (.timeout, [10, 9], s2)) :=
  ⟨⟨_, bulk_ops_propagate_first_error.1 onceThenStuckHw readyState [10, 20] 30
      [40] _ _ _ _ rfl rfl (by decide)⟩,
   ⟨_, bulk_ops_propagate_first_error.2.1 onceThenErrorHw readyState [9, 9, 9]
      _ 1 1 _ _ _ _ rfl rfl (by decide)⟩,
   ⟨_, bulk_ops_propagate_first_error.2.2 onceThenErrorHw readyState [10] 20 []
      [9, 9] _ _ _ _ _ rfl rfl (by decide)⟩⟩

end SpiDriver
